import Mathlib

/-!
Verification of the local persistence core of the Mind-Space wellness tracker
(`src/utils/storage.ts`, journal/quiz logic in the components).

Modelling conventions:
* Each IndexedDB object store (keyPath `date`) is modelled as a `List` of
  records; `put` is insert-or-replace by key, `get` is `find?` by key,
  `delete` is `filter`, `clear` empties the list.
* Calendar dates: mood records are keyed by `YYYY-MM-DD` strings in the
  source.  For the derived queries (`getStreak`, `getWeeklyData`) those
  strings are parsed with `new Date(...)` and normalised to midnight, and
  the lexicographic order used by `sort(localeCompare)` agrees with
  chronological order on valid ISO dates.  We therefore model a mood
  record's `date` as its calendar day number (an `Int`), on which both the
  descending sort and the "exactly `i` days before today" arithmetic of the
  source act directly.  Quiz and journal dates are opaque string keys.
* Timestamps (`Date.now()`) are `Nat` milliseconds; each event handler is
  modelled as receiving one timestamp `now` for all its clock reads.
-/

namespace MindSpace

/-- `MoodEntry` from storage.ts: `date` (key, modelled as calendar day
number), `mood` (emoji string), optional `note`. -/
structure MoodEntry where
  date : Int
  mood : String
  note : Option String := none
deriving DecidableEq, Repr

/-- The `level` field of a stress-quiz record: `'Low' | 'Moderate' | 'High'`. -/
inductive StressLevel where
  | Low
  | Moderate
  | High
deriving DecidableEq, Repr

/-- `StressQuizEntry` from storage.ts: `answers` is the
`Record<number, number>` of question id to answer value. -/
structure StressQuizEntry where
  date : String
  score : Nat
  level : StressLevel
  answers : List (Nat × Nat)
  timestamp : Nat
deriving DecidableEq, Repr

/-- `JournalEntry` from storage.ts: `draft?: boolean` is an optional field,
hence `Option Bool`. -/
structure JournalEntry where
  date : String
  content : String
  draft : Option Bool := none
  lastModified : Nat
  createdAt : Nat
deriving DecidableEq, Repr

/-! ### Mood collection accessors (storage.ts, `storage` object) -/

/-- `getMoodByDate`: point lookup by primary key; `request.result || null`. -/
def getMoodByDate (date : Int) (s : List MoodEntry) : Option MoodEntry :=
  s.find? (fun e => e.date = date)

/-- `saveMood`: `store.put(entry)` — insert-or-replace keyed by `entry.date`. -/
def saveMood (entry : MoodEntry) (s : List MoodEntry) : List MoodEntry :=
  entry :: s.filter (fun e => e.date ≠ entry.date)

/-- `deleteMood`: `store.delete(date)` — removes the record with that key. -/
def deleteMood (date : Int) (s : List MoodEntry) : List MoodEntry :=
  s.filter (fun e => e.date ≠ date)

/-- The list of primary keys of a mood collection. -/
def moodKeys (s : List MoodEntry) : List Int :=
  s.map (·.date)

/-- The list of primary keys of a stress-quiz collection. -/
def quizKeys (s : List StressQuizEntry) : List String :=
  s.map (·.date)

/-- The list of primary keys of a journal collection. -/
def journalKeys (s : List JournalEntry) : List String :=
  s.map (·.date)

/-! ### Stress-quiz collection accessors (storage.ts, `stressQuizStorage`) -/

/-- `stressQuizStorage.getQuizByDate`. -/
def getQuizByDate (date : String) (s : List StressQuizEntry) : Option StressQuizEntry :=
  s.find? (fun e => e.date = date)

/-- `stressQuizStorage.saveQuizResult`: `store.put(entry)`. -/
def saveQuizResult (entry : StressQuizEntry) (s : List StressQuizEntry) :
    List StressQuizEntry :=
  entry :: s.filter (fun e => e.date ≠ entry.date)

/-! ### Journal collection accessors (storage.ts, `journalStorage`) -/

/-- `journalStorage.getJournalByDate`. -/
def getJournalByDate (date : String) (s : List JournalEntry) : Option JournalEntry :=
  s.find? (fun e => e.date = date)

/-- `journalStorage.saveJournal`: `store.put(entry)`. -/
def saveJournal (entry : JournalEntry) (s : List JournalEntry) : List JournalEntry :=
  entry :: s.filter (fun e => e.date ≠ entry.date)

/-- `journalStorage.deleteJournal`: `store.delete(date)`. -/
def deleteJournal (date : String) (s : List JournalEntry) : List JournalEntry :=
  s.filter (fun e => e.date ≠ date)

/-! ### Whole-database state, for frame reasoning -/

/-- The three object stores of `MindSpaceDB`. -/
structure DBState where
  moods : List MoodEntry
  stressQuizzes : List StressQuizEntry
  journals : List JournalEntry
deriving DecidableEq, Repr

/-- `storage.clearAll`: opens a readwrite transaction over the `moods`
store only and calls `store.clear()`. -/
def clearAll (s : DBState) : DBState :=
  { s with moods := [] }

/-! ### Stress quiz scoring (StressQuiz.tsx) -/

/-- `calculateScore`: `Object.values(answers).reduce((sum, value) => sum + value, 0)`. -/
def calculateScore (answers : List (Nat × Nat)) : Nat :=
  (answers.map Prod.snd).foldl (· + ·) 0

/-- `getStressLevel` over `STRESS_LEVELS` (`LOW.max = 25`, `MODERATE.max = 40`):
`score <= 25 → LOW`, `score <= 40 → MODERATE`, otherwise `HIGH`. -/
def getStressLevel (totalScore : Nat) : StressLevel :=
  if totalScore ≤ 25 then .Low
  else if totalScore ≤ 40 then .Moderate
  else .High

/-- The `StressQuizEntry` constructed by `handleSubmit` from the answers map. -/
def mkQuizEntry (date : String) (answers : List (Nat × Nat)) (timestamp : Nat) :
    StressQuizEntry :=
  { date := date
    score := calculateScore answers
    level := getStressLevel (calculateScore answers)
    answers := answers
    timestamp := timestamp }

/-! ### Journal component state machine (Journal component)

The component state relevant to persistence: the textarea `content`, the
`isDraft` flag and `lastSaved` (a timestamp or `null`).  Each handler
receives one clock reading `now` standing for its `Date.now()` /
`new Date()` calls. -/

/-- UI state of the Journal component. -/
structure JournalUI where
  content : String
  isDraft : Bool
  lastSaved : Option Nat
deriving DecidableEq, Repr

/-- JavaScript `String.prototype.trim()`: strip whitespace from both ends
(written with structural list recursion so it evaluates by reduction). -/
def jsTrim (s : String) : String :=
  String.mk (((s.data.dropWhile Char.isWhitespace).reverse.dropWhile
    Char.isWhitespace).reverse)

/-- `autoSaveDraft`: guard `if (!content.trim()) return`; builds an entry with
`draft: true`, `lastModified: Date.now()`,
`createdAt: lastSaved ? lastSaved.getTime() : Date.now()`; saves it and sets
`isDraft = true`, `lastSaved = new Date()`. -/
def autoSaveDraft (now : Nat) (todayStr : String) (ui : JournalUI)
    (s : List JournalEntry) : JournalUI × List JournalEntry :=
  if jsTrim ui.content = "" then (ui, s)
  else
    let entry : JournalEntry :=
      { date := todayStr
        content := jsTrim ui.content
        draft := some true
        lastModified := now
        createdAt := match ui.lastSaved with
          | some ts => ts
          | none => now }
    ({ ui with isDraft := true, lastSaved := some now }, saveJournal entry s)

/-- `handleSave`: same as `autoSaveDraft` but with `draft: false` and
`isDraft = false` afterwards. -/
def handleSave (now : Nat) (todayStr : String) (ui : JournalUI)
    (s : List JournalEntry) : JournalUI × List JournalEntry :=
  if jsTrim ui.content = "" then (ui, s)
  else
    let entry : JournalEntry :=
      { date := todayStr
        content := jsTrim ui.content
        draft := some false
        lastModified := now
        createdAt := match ui.lastSaved with
          | some ts => ts
          | none => now }
    ({ ui with isDraft := false, lastSaved := some now }, saveJournal entry s)

/-- `handleDelete`: deletes today's record and resets the component state
(`content = ''`, `isDraft = false`, `lastSaved = null`). -/
def handleDelete (todayStr : String) (s : List JournalEntry) :
    JournalUI × List JournalEntry :=
  (⟨"", false, none⟩, deleteJournal todayStr s)

/-! ### Schema upgrade (initIndexedDB, onupgradeneeded) -/

/-- `DB_VERSION = 2`. -/
def DB_VERSION : Nat := 2

/-- The `onupgradeneeded` handler, acting on the set of existing object-store
names: create `moods` if absent (unconditionally), then `stressQuizzes` and
`journals` each if `oldVersion < 2` and absent. -/
def upgradeSchema (oldVersion : Nat) (stores : List String) : List String :=
  let s1 := if "moods" ∈ stores then stores else stores ++ ["moods"]
  let s2 := if oldVersion < 2 ∧ "stressQuizzes" ∉ s1 then s1 ++ ["stressQuizzes"] else s1
  let s3 := if oldVersion < 2 ∧ "journals" ∉ s2 then s2 ++ ["journals"] else s2
  s3

/-- The collections the schema requires at target version `DB_VERSION`,
as a function of the previous version (the source guards the two new
stores by `oldVersion < 2`). -/
def requiredStores (oldVersion : Nat) : List String :=
  if oldVersion < 2 then ["moods", "stressQuizzes", "journals"] else ["moods"]

/-! ### Backend request outcomes (error handling) -/

/-- A backend failure surfaced by a rejected IndexedDB request; the
originating `request.error` is carried as the cause. -/
structure StorageIOError where
  cause : String
deriving DecidableEq, Repr

/-- `getMoodByDate` as a fallible request: `onerror` rejects with the
backend error, `onsuccess` resolves `request.result || null`. -/
def getMoodByDateReq (backendError : Option String) (date : Int)
    (s : List MoodEntry) : Except StorageIOError (Option MoodEntry) :=
  match backendError with
  | some cause => .error ⟨cause⟩
  | none => .ok (getMoodByDate date s)

/-- `journalStorage.getJournalByDate` as a fallible request. -/
def getJournalByDateReq (backendError : Option String) (date : String)
    (s : List JournalEntry) : Except StorageIOError (Option JournalEntry) :=
  match backendError with
  | some cause => .error ⟨cause⟩
  | none => .ok (getJournalByDate date s)

/-! ### Derived queries: streak and weekly trend (storage.ts) -/

/-- Insertion step of the descending sort
`moods.sort((a, b) => b.date.localeCompare(a.date))`. -/
def insertDesc (x : MoodEntry) : List MoodEntry → List MoodEntry
  | [] => [x]
  | y :: ys => if y.date ≤ x.date then x :: y :: ys else y :: insertDesc x ys

/-- Sort mood entries by date descending (newest first). -/
def sortDesc : List MoodEntry → List MoodEntry
  | [] => []
  | x :: xs => insertDesc x (sortDesc xs)

/-- The loop of `getStreak`: at index `i`, if the entry is exactly `i` days
before today (`daysDiff === i`) count it and continue, else break. -/
def streakWalk (today : Int) : Nat → List MoodEntry → Nat
  | _, [] => 0
  | i, e :: rest =>
    if today - e.date = (i : Int) then 1 + streakWalk today (i + 1) rest else 0

/-- `getStreak`: empty collection → 0; otherwise sort descending and count
consecutive days from today backwards. -/
def getStreak (today : Int) (moods : List MoodEntry) : Nat :=
  if moods.isEmpty then 0 else streakWalk today 0 (sortDesc moods)

/-- The mood slot stored by `getWeeklyData`: `entry?.mood || null`
(the empty string is falsy, hence also maps to `null`). -/
def slotMood (entry : Option MoodEntry) : Option String :=
  match entry with
  | some e => if e.mood = "" then none else some e.mood
  | none => none

/-- One iteration of the `getWeeklyData` loop for offset `i` days ago. -/
def weekSlot (today : Int) (moods : List MoodEntry) (i : Nat) : Int × Option String :=
  (today - (i : Int), slotMood (getMoodByDate (today - (i : Int)) moods))

/-- `getWeeklyData`: for `i = 6` down to `0`, one point lookup per day. -/
def getWeeklyData (today : Int) (moods : List MoodEntry) :
    List (Int × Option String) :=
  [6, 5, 4, 3, 2, 1, 0].map (weekSlot today moods)

/-! ## Theorems -/

/-- Helper: `put` preserves the at-most-one-record-per-date invariant of the
moods collection. -/
theorem saveMood_keys_nodup (r : MoodEntry) (s : List MoodEntry)
    (h : (moodKeys s).Nodup) : (moodKeys (saveMood r s)).Nodup := by
  unfold moodKeys saveMood
  rw [List.map_cons, List.nodup_cons]
  constructor
  · intro hmem
    rcases List.mem_map.mp hmem with ⟨x, hx, hdx⟩
    rcases List.mem_filter.mp hx with ⟨_, hpx⟩
    simp only [decide_eq_true_eq] at hpx
    exact hpx hdx
  · exact ((List.filter_sublist s).map _).nodup h

/-- Helper: `put` preserves the at-most-one-record-per-date invariant of the
stress-quiz collection. -/
theorem saveQuizResult_keys_nodup (r : StressQuizEntry) (s : List StressQuizEntry)
    (h : (quizKeys s).Nodup) : (quizKeys (saveQuizResult r s)).Nodup := by
  unfold quizKeys saveQuizResult
  rw [List.map_cons, List.nodup_cons]
  constructor
  · intro hmem
    rcases List.mem_map.mp hmem with ⟨x, hx, hdx⟩
    rcases List.mem_filter.mp hx with ⟨_, hpx⟩
    simp only [decide_eq_true_eq] at hpx
    exact hpx hdx
  · exact ((List.filter_sublist s).map _).nodup h

/-- Helper: `put` preserves the at-most-one-record-per-date invariant of the
journal collection. -/
theorem saveJournal_keys_nodup (r : JournalEntry) (s : List JournalEntry)
    (h : (journalKeys s).Nodup) : (journalKeys (saveJournal r s)).Nodup := by
  unfold journalKeys saveJournal
  rw [List.map_cons, List.nodup_cons]
  constructor
  · intro hmem
    rcases List.mem_map.mp hmem with ⟨x, hx, hdx⟩
    rcases List.mem_filter.mp hx with ⟨_, hpx⟩
    simp only [decide_eq_true_eq] at hpx
    exact hpx hdx
  · exact ((List.filter_sublist s).map _).nodup h

/-- C5: last write wins, for every collection — after two `put`s with the
same date key, `get` returns only the latter record, and the
at-most-one-record-per-date invariant is preserved, in each of the moods,
stress-quiz and journal collections. -/
theorem put_put_last_write_wins (d : Int) (r1 r2 : MoodEntry) (s : List MoodEntry)
    (dq : String) (q1 q2 : StressQuizEntry) (sq : List StressQuizEntry)
    (dj : String) (j1 j2 : JournalEntry) (sj : List JournalEntry)
    (h1 : r1.date = d) (h2 : r2.date = d)
    (hq1 : q1.date = dq) (hq2 : q2.date = dq)
    (hj1 : j1.date = dj) (hj2 : j2.date = dj) :
    getMoodByDate d (saveMood r2 (saveMood r1 s)) = some r2 ∧
    ((moodKeys s).Nodup → (moodKeys (saveMood r2 (saveMood r1 s))).Nodup) ∧
    getQuizByDate dq (saveQuizResult q2 (saveQuizResult q1 sq)) = some q2 ∧
    ((quizKeys sq).Nodup →
      (quizKeys (saveQuizResult q2 (saveQuizResult q1 sq))).Nodup) ∧
    getJournalByDate dj (saveJournal j2 (saveJournal j1 sj)) = some j2 ∧
    ((journalKeys sj).Nodup →
      (journalKeys (saveJournal j2 (saveJournal j1 sj))).Nodup) := by
  refine ⟨?_, ?_, ?_, ?_, ?_, ?_⟩
  · subst h2
    simp [getMoodByDate, saveMood, List.find?]
  · intro h
    exact saveMood_keys_nodup _ _ (saveMood_keys_nodup _ _ h)
  · subst hq2
    simp [getQuizByDate, saveQuizResult, List.find?]
  · intro h
    exact saveQuizResult_keys_nodup _ _ (saveQuizResult_keys_nodup _ _ h)
  · subst hj2
    simp [getJournalByDate, saveJournal, List.find?]
  · intro h
    exact saveJournal_keys_nodup _ _ (saveJournal_keys_nodup _ _ h)

/-- Witness for `put_put_last_write_wins` at concrete records in all three
collections. -/
theorem put_put_last_write_wins_witness :
    (⟨5, "x", none⟩ : MoodEntry).date = 5 ∧ (⟨5, "y", none⟩ : MoodEntry).date = 5 ∧
    (⟨"q", 10, .Low, [(1, 1)], 4⟩ : StressQuizEntry).date = "q" ∧
    (⟨"q", 11, .Low, [(1, 2)], 5⟩ : StressQuizEntry).date = "q" ∧
    (⟨"j", "a", some true, 1, 1⟩ : JournalEntry).date = "j" ∧
    (⟨"j", "b", some false, 2, 1⟩ : JournalEntry).date = "j" ∧
    (getMoodByDate 5 (saveMood ⟨5, "y", none⟩ (saveMood ⟨5, "x", none⟩ [⟨4, "z", none⟩])) =
        some ⟨5, "y", none⟩ ∧
      ((moodKeys [⟨4, "z", none⟩]).Nodup →
        (moodKeys (saveMood ⟨5, "y", none⟩
          (saveMood ⟨5, "x", none⟩ [⟨4, "z", none⟩]))).Nodup) ∧
      getQuizByDate "q" (saveQuizResult ⟨"q", 11, .Low, [(1, 2)], 5⟩
          (saveQuizResult ⟨"q", 10, .Low, [(1, 1)], 4⟩ [])) =
        some ⟨"q", 11, .Low, [(1, 2)], 5⟩ ∧
      ((quizKeys []).Nodup →
        (quizKeys (saveQuizResult ⟨"q", 11, .Low, [(1, 2)], 5⟩
          (saveQuizResult ⟨"q", 10, .Low, [(1, 1)], 4⟩ []))).Nodup) ∧
      getJournalByDate "j" (saveJournal ⟨"j", "b", some false, 2, 1⟩
          (saveJournal ⟨"j", "a", some true, 1, 1⟩ [])) =
        some ⟨"j", "b", some false, 2, 1⟩ ∧
      ((journalKeys []).Nodup →
        (journalKeys (saveJournal ⟨"j", "b", some false, 2, 1⟩
          (saveJournal ⟨"j", "a", some true, 1, 1⟩ []))).Nodup)) :=
  ⟨by decide, by decide, by decide, by decide, by decide, by decide,
    put_put_last_write_wins 5 ⟨5, "x", none⟩ ⟨5, "y", none⟩ [⟨4, "z", none⟩]
      "q" ⟨"q", 10, .Low, [(1, 1)], 4⟩ ⟨"q", 11, .Low, [(1, 2)], 5⟩ []
      "j" ⟨"j", "a", some true, 1, 1⟩ ⟨"j", "b", some false, 2, 1⟩ []
      (by decide) (by decide) (by decide) (by decide) (by decide) (by decide)⟩

/-- C6: round-trip — for every record type, `put(r); get(r.date)` returns a
record field-for-field equal to `r`. -/
theorem put_get_roundtrip (rm : MoodEntry) (sm : List MoodEntry)
    (rq : StressQuizEntry) (sq : List StressQuizEntry)
    (rj : JournalEntry) (sj : List JournalEntry) :
    getMoodByDate rm.date (saveMood rm sm) = some rm ∧
    getQuizByDate rq.date (saveQuizResult rq sq) = some rq ∧
    getJournalByDate rj.date (saveJournal rj sj) = some rj := by
  refine ⟨?_, ?_, ?_⟩ <;>
    simp [getMoodByDate, saveMood, getQuizByDate, saveQuizResult,
      getJournalByDate, saveJournal, List.find?]

/-- C8: delete is idempotent — deleting an absent key is a no-op, and a
second delete changes nothing, for both moods and journals. -/
theorem delete_idempotent (d : Int) (s : List MoodEntry)
    (dj : String) (sj : List JournalEntry) :
    (getMoodByDate d s = none → deleteMood d s = s) ∧
    deleteMood d (deleteMood d s) = deleteMood d s ∧
    (getJournalByDate dj sj = none → deleteJournal dj sj = sj) ∧
    deleteJournal dj (deleteJournal dj sj) = deleteJournal dj sj := by
  refine ⟨?_, ?_, ?_, ?_⟩
  · intro h
    apply List.filter_eq_self.mpr
    intro a ha
    have := List.find?_eq_none.mp h a ha
    simpa using this
  · exact List.filter_eq_self.mpr (fun a ha => (List.mem_filter.mp ha).2)
  · intro h
    apply List.filter_eq_self.mpr
    intro a ha
    have := List.find?_eq_none.mp h a ha
    simpa using this
  · exact List.filter_eq_self.mpr (fun a ha => (List.mem_filter.mp ha).2)

/-- Witness for `delete_idempotent` at a concrete store. -/
theorem delete_idempotent_witness :
    ((getMoodByDate 5 [⟨4, "z", none⟩] = none →
        deleteMood 5 [⟨4, "z", none⟩] = [⟨4, "z", none⟩]) ∧
      deleteMood 5 (deleteMood 5 [⟨4, "z", none⟩]) = deleteMood 5 [⟨4, "z", none⟩] ∧
      (getJournalByDate "a" [] = none → deleteJournal "a" [] = []) ∧
      deleteJournal "a" (deleteJournal "a" []) = deleteJournal "a" []) :=
  delete_idempotent 5 [⟨4, "z", none⟩] "a" []

/-- C10: `clearAll` empties the moods collection and leaves the stress-quiz
and journal collections unchanged. -/
theorem clearAll_only_moods (s : DBState) :
    (clearAll s).moods = [] ∧
    (clearAll s).stressQuizzes = s.stressQuizzes ∧
    (clearAll s).journals = s.journals :=
  ⟨rfl, rfl, rfl⟩

/-- Helper: folding `(+)` over a list of naturals from an accumulator. -/
theorem foldl_add_eq_sum (l : List Nat) : ∀ a : Nat, l.foldl (· + ·) a = a + l.sum := by
  induction l with
  | nil => intro a; simp
  | cons x xs ih =>
    intro a
    simp only [List.foldl_cons, List.sum_cons, ih]
    omega

/-- C9: `get` never fails for a missing key — absent a backend error it
resolves with the absent value, and a backend error surfaces as a
`StorageIOError` carrying the originating cause. -/
theorem get_missing_key_policy (d : Int) (s : List MoodEntry)
    (dj : String) (sj : List JournalEntry) (cause : String)
    (hm : getMoodByDate d s = none) (hj : getJournalByDate dj sj = none) :
    getMoodByDateReq none d s = .ok none ∧
    getJournalByDateReq none dj sj = .ok none ∧
    getMoodByDateReq (some cause) d s = .error ⟨cause⟩ ∧
    getJournalByDateReq (some cause) dj sj = .error ⟨cause⟩ :=
  ⟨by simp [getMoodByDateReq, hm], by simp [getJournalByDateReq, hj], rfl, rfl⟩

/-- Witness for `get_missing_key_policy` at a concrete store. -/
theorem get_missing_key_policy_witness :
    getMoodByDate 7 [⟨4, "z", none⟩] = none ∧
    getJournalByDate "b" [] = none ∧
    (getMoodByDateReq none 7 [⟨4, "z", none⟩] = .ok none ∧
      getJournalByDateReq none "b" [] = .ok none ∧
      getMoodByDateReq (some "quota") 7 [⟨4, "z", none⟩] = .error ⟨"quota"⟩ ∧
      getJournalByDateReq (some "quota") "b" [] = .error ⟨"quota"⟩) :=
  ⟨by decide, by decide,
    get_missing_key_policy 7 [⟨4, "z", none⟩] "b" [] "quota" (by decide) (by decide)⟩

/-- C3: the constructed quiz record's score is the sum of the answer values
and its level is the deterministic banding of the score, with the boundary
scores 25, 26, 40, 41 each in their stated band. -/
theorem quiz_score_level (d : String) (a : List (Nat × Nat)) (ts : Nat) :
    (mkQuizEntry d a ts).score = (a.map Prod.snd).sum ∧
    ((mkQuizEntry d a ts).score ≤ 25 → (mkQuizEntry d a ts).level = .Low) ∧
    (26 ≤ (mkQuizEntry d a ts).score ∧ (mkQuizEntry d a ts).score ≤ 40 →
      (mkQuizEntry d a ts).level = .Moderate) ∧
    (41 ≤ (mkQuizEntry d a ts).score ∧ (mkQuizEntry d a ts).score ≤ 50 →
      (mkQuizEntry d a ts).level = .High) ∧
    getStressLevel 25 = .Low ∧ getStressLevel 26 = .Moderate ∧
    getStressLevel 40 = .Moderate ∧ getStressLevel 41 = .High := by
  refine ⟨?_, ?_, ?_, ?_, by decide, by decide, by decide, by decide⟩
  · simpa [mkQuizEntry, calculateScore] using foldl_add_eq_sum (a.map Prod.snd) 0
  · intro h
    simp only [mkQuizEntry] at h ⊢
    unfold getStressLevel
    rw [if_pos h]
  · rintro ⟨h1, h2⟩
    simp only [mkQuizEntry] at h1 h2 ⊢
    unfold getStressLevel
    rw [if_neg (by omega), if_pos h2]
  · rintro ⟨h1, _⟩
    simp only [mkQuizEntry] at h1 ⊢
    unfold getStressLevel
    rw [if_neg (by omega), if_neg (by omega)]

/-- Witness for `quiz_score_level` at a concrete answers map. -/
theorem quiz_score_level_witness :
    ((mkQuizEntry "2024-01-01" [(1, 3), (2, 4)] 7).score =
        ([((1 : Nat), (3 : Nat)), (2, 4)].map Prod.snd).sum ∧
      ((mkQuizEntry "2024-01-01" [(1, 3), (2, 4)] 7).score ≤ 25 →
        (mkQuizEntry "2024-01-01" [(1, 3), (2, 4)] 7).level = .Low) ∧
      (26 ≤ (mkQuizEntry "2024-01-01" [(1, 3), (2, 4)] 7).score ∧
          (mkQuizEntry "2024-01-01" [(1, 3), (2, 4)] 7).score ≤ 40 →
        (mkQuizEntry "2024-01-01" [(1, 3), (2, 4)] 7).level = .Moderate) ∧
      (41 ≤ (mkQuizEntry "2024-01-01" [(1, 3), (2, 4)] 7).score ∧
          (mkQuizEntry "2024-01-01" [(1, 3), (2, 4)] 7).score ≤ 50 →
        (mkQuizEntry "2024-01-01" [(1, 3), (2, 4)] 7).level = .High) ∧
      getStressLevel 25 = .Low ∧ getStressLevel 26 = .Moderate ∧
      getStressLevel 40 = .Moderate ∧ getStressLevel 41 = .High) :=
  quiz_score_level "2024-01-01" [(1, 3), (2, 4)] 7

/-- Helper: the upgrade appends exactly the required collections that are
missing, in order, after the existing ones. -/
theorem upgradeSchema_eq (v : Nat) (stores : List String) :
    upgradeSchema v stores =
      stores ++ (requiredStores v).filter (fun c => ¬ c ∈ stores) := by
  by_cases hv : v < 2 <;>
    by_cases hm : "moods" ∈ stores <;>
      by_cases hq : "stressQuizzes" ∈ stores <;>
        by_cases hj : "journals" ∈ stores <;>
          simp [upgradeSchema, requiredStores, hv, hm, hq, hj]

/-- Helper: every collection required at the target version exists after the
upgrade. -/
theorem upgrade_required_mem (v : Nat) (stores : List String) :
    ∀ c ∈ requiredStores v, c ∈ upgradeSchema v stores := by
  intro c hc
  rw [upgradeSchema_eq]
  by_cases hs : c ∈ stores
  · exact List.mem_append_left _ hs
  · exact List.mem_append_right _ (List.mem_filter.mpr ⟨hc, by simpa using hs⟩)

/-- C7: the upgrade creates exactly the missing required collections, keeps
every existing collection, creates `moods` regardless of the previous
version and the two new stores when the previous version is below 2, and
re-running it is a no-op. -/
theorem schema_upgrade_claim (v : Nat) (stores : List String) :
    upgradeSchema v stores =
      stores ++ (requiredStores v).filter (fun c => ¬ c ∈ stores) ∧
    (∀ c ∈ stores, c ∈ upgradeSchema v stores) ∧
    "moods" ∈ upgradeSchema v stores ∧
    (v < 2 →
      "stressQuizzes" ∈ upgradeSchema v stores ∧
      "journals" ∈ upgradeSchema v stores) ∧
    upgradeSchema v (upgradeSchema v stores) = upgradeSchema v stores := by
  refine ⟨upgradeSchema_eq v stores, ?_, ?_, ?_, ?_⟩
  · intro c hc
    rw [upgradeSchema_eq]
    exact List.mem_append_left _ hc
  · apply upgrade_required_mem
    by_cases hv : v < 2 <;> simp [requiredStores, hv]
  · intro hv
    constructor <;> apply upgrade_required_mem <;> simp [requiredStores, hv]
  · rw [upgradeSchema_eq v (upgradeSchema v stores)]
    have h : (requiredStores v).filter (fun c => ¬ c ∈ upgradeSchema v stores) = [] := by
      rw [List.filter_eq_nil_iff]
      intro c hc
      simpa using upgrade_required_mem v stores c hc
    rw [h, List.append_nil]

/-- Witness for `schema_upgrade_claim`: a version-1 store holding only
`moods`. -/
theorem schema_upgrade_claim_witness :
    (upgradeSchema 1 ["moods"] =
      ["moods"] ++ (requiredStores 1).filter (fun c => ¬ c ∈ ["moods"]) ∧
    (∀ c ∈ ["moods"], c ∈ upgradeSchema 1 ["moods"]) ∧
    "moods" ∈ upgradeSchema 1 ["moods"] ∧
    ((1 : Nat) < 2 →
      "stressQuizzes" ∈ upgradeSchema 1 ["moods"] ∧
      "journals" ∈ upgradeSchema 1 ["moods"]) ∧
    upgradeSchema 1 (upgradeSchema 1 ["moods"]) = upgradeSchema 1 ["moods"]) :=
  schema_upgrade_claim 1 ["moods"]

/-- C4: `getWeeklyData` returns exactly 7 slots, one per day of the window
ending today, oldest first, the slot at offset `j` being the point lookup
for the day `6 - j` days ago; days with no record yield an absent mood. -/
theorem weekly_trend_shape (t : Int) (ms : List MoodEntry) :
    (getWeeklyData t ms).length = 7 ∧
    (∀ j : Nat, j < 7 → (getWeeklyData t ms)[j]? =
      some (t - (6 - (j : Int)), slotMood (getMoodByDate (t - (6 - (j : Int))) ms))) ∧
    (getWeeklyData t ms)[6]? = some (t, slotMood (getMoodByDate t ms)) ∧
    (∀ j : Nat, j < 7 → getMoodByDate (t - (6 - (j : Int))) ms = none →
      (getWeeklyData t ms)[j]? = some (t - (6 - (j : Int)), none)) := by
  have hmain : ∀ j : Nat, j < 7 → (getWeeklyData t ms)[j]? =
      some (t - (6 - (j : Int)), slotMood (getMoodByDate (t - (6 - (j : Int))) ms)) := by
    intro j hj
    interval_cases j <;> simp [getWeeklyData, weekSlot]
  refine ⟨by simp [getWeeklyData], hmain, ?_, ?_⟩
  · have := hmain 6 (by omega)
    simpa using this
  · intro j hj habsent
    rw [hmain j hj, habsent]
    simp [slotMood]

/-- Witness for `weekly_trend_shape` at a concrete store, offset 3. -/
theorem weekly_trend_shape_witness :
    (3 : Nat) < 7 ∧
    (getWeeklyData 100 [⟨100, "c", none⟩])[3]? =
      some (100 - (6 - ((3 : Nat) : Int)),
        slotMood (getMoodByDate (100 - (6 - ((3 : Nat) : Int))) [⟨100, "c", none⟩])) ∧
    (getWeeklyData 100 [⟨100, "c", none⟩]).length = 7 :=
  ⟨by decide, (weekly_trend_shape 100 [⟨100, "c", none⟩]).2.1 3 (by decide),
    (weekly_trend_shape 100 [⟨100, "c", none⟩]).1⟩

/-- Helper: every index counted by the streak loop is exactly that many days
before today. -/
theorem streakWalk_counts (t : Int) (l : List MoodEntry) :
    ∀ (i k : Nat), k < streakWalk t i l →
      l[k]?.map (fun e => t - e.date) = some ((i + k : Nat) : Int) := by
  induction l with
  | nil => intro i k h; simp [streakWalk] at h
  | cons e rest ih =>
    intro i k h
    simp only [streakWalk] at h
    split at h
    · rename_i hc
      match k with
      | 0 => simpa using hc
      | Nat.succ k =>
        have h' : k < streakWalk t (i + 1) rest := by omega
        have := ih (i + 1) k h'
        rw [show i + (k + 1) = i + 1 + k from by omega]
        simpa using this
    · omega

/-- Helper: the streak loop stops at the first index that is not exactly
that many days before today. -/
theorem streakWalk_stops (t : Int) (l : List MoodEntry) :
    ∀ i : Nat, streakWalk t i l < l.length →
      l[streakWalk t i l]?.map (fun e => t - e.date) ≠
        some ((i + streakWalk t i l : Nat) : Int) := by
  induction l with
  | nil => intro i h; simp at h
  | cons e rest ih =>
    intro i h
    by_cases hc : t - e.date = (i : Int)
    · simp only [streakWalk, if_pos hc] at h ⊢
      have h' : streakWalk t (i + 1) rest < rest.length := by
        simp only [List.length_cons] at h
        omega
      have := ih (i + 1) h'
      rw [show 1 + streakWalk t (i + 1) rest = streakWalk t (i + 1) rest + 1 from by omega]
      rw [show i + (streakWalk t (i + 1) rest + 1) = i + 1 + streakWalk t (i + 1) rest
        from by omega]
      simpa using this
    · simp only [streakWalk, if_neg hc]
      simpa using hc

/-- C2: the streak is 0 on an empty collection, 3 for today/yesterday/
day-before, 0 when today is missing, 1 when yesterday is missing; and in
general it counts exactly the initial indices of the descending-sorted list
that are each exactly their index in days before today, stopping at the
first mismatch. -/
theorem streak_claim (t : Int) (m1 m2 m3 : String) (ms : List MoodEntry) :
    getStreak t [] = 0 ∧
    getStreak t [⟨t - 2, m3, none⟩, ⟨t - 1, m2, none⟩, ⟨t, m1, none⟩] = 3 ∧
    getStreak t [⟨t - 2, m3, none⟩, ⟨t - 1, m2, none⟩] = 0 ∧
    getStreak t [⟨t - 2, m3, none⟩, ⟨t, m1, none⟩] = 1 ∧
    (∀ k : Nat, k < getStreak t ms →
      (sortDesc ms)[k]?.map (fun e => t - e.date) = some (k : Int)) ∧
    (getStreak t ms < (sortDesc ms).length →
      (sortDesc ms)[getStreak t ms]?.map (fun e => t - e.date) ≠
        some (getStreak t ms : Int)) := by
  have hg : ∀ ms' : List MoodEntry, getStreak t ms' = streakWalk t 0 (sortDesc ms') := by
    intro ms'
    cases ms' with
    | nil => rfl
    | cons x xs => simp [getStreak]
  refine ⟨by simp [getStreak], ?_, ?_, ?_, ?_, ?_⟩
  · simp [getStreak, sortDesc, insertDesc, streakWalk,
      show ¬((t : Int) ≤ t - 1) from by omega,
      show ¬((t : Int) ≤ t - 2) from by omega,
      show ¬((t : Int) - 1 ≤ t - 2) from by omega,
      show (t : Int) - (t - 1) = 1 from by ring,
      show (t : Int) - (t - 2) = 2 from by ring]
  · simp [getStreak, sortDesc, insertDesc, streakWalk,
      show ¬((t : Int) - 1 ≤ t - 2) from by omega,
      show ¬((t : Int) - (t - 1) = 0) from by omega]
  · simp [getStreak, sortDesc, insertDesc, streakWalk,
      show ¬((t : Int) ≤ t - 2) from by omega,
      show ¬((t : Int) - (t - 2) = 1) from by omega]
  · intro k hk
    rw [hg] at hk
    simpa using streakWalk_counts t (sortDesc ms) 0 k hk
  · intro hlt
    rw [hg] at hlt ⊢
    simpa using streakWalk_stops t (sortDesc ms) 0 hlt

/-- Witness for `streak_claim` at today = 100 over a store with a gap at
yesterday. -/
theorem streak_claim_witness :
    (getStreak 100 [] = 0 ∧
    getStreak 100 [⟨100 - 2, "c", none⟩, ⟨100 - 1, "b", none⟩, ⟨100, "a", none⟩] = 3 ∧
    getStreak 100 [⟨100 - 2, "c", none⟩, ⟨100 - 1, "b", none⟩] = 0 ∧
    getStreak 100 [⟨100 - 2, "c", none⟩, ⟨100, "a", none⟩] = 1 ∧
    (∀ k : Nat, k < getStreak 100 [⟨98, "c", none⟩, ⟨100, "a", none⟩] →
      (sortDesc [⟨98, "c", none⟩, ⟨100, "a", none⟩])[k]?.map (fun e => 100 - e.date) =
        some (k : Int)) ∧
    (getStreak 100 [⟨98, "c", none⟩, ⟨100, "a", none⟩] <
        (sortDesc [⟨98, "c", none⟩, ⟨100, "a", none⟩]).length →
      (sortDesc [⟨98, "c", none⟩,
          ⟨100, "a", none⟩])[getStreak 100 [⟨98, "c", none⟩, ⟨100, "a", none⟩]]?.map
            (fun e => 100 - e.date) ≠
        some (getStreak 100 [⟨98, "c", none⟩, ⟨100, "a", none⟩] : Int))) :=
  streak_claim 100 "a" "b" "c" [⟨98, "c", none⟩, ⟨100, "a", none⟩]

/-- C1: journal lifecycle absent → draft (auto-save) → final (explicit save):
`createdAt` is stamped at creation and unchanged across the two saves,
`lastModified` strictly increases, and delete followed by re-creation yields
a fresh `createdAt`. -/
theorem journal_lifecycle (d c1 c2 : String) (t1 t2 t3 : Nat) (s0 : List JournalEntry)
    (ui1 ui2 ui3 ui4 : JournalUI) (s1 s2 s3 s4 : List JournalEntry)
    (hc1 : jsTrim c1 ≠ "") (hc2 : jsTrim c2 ≠ "")
    (h12 : t1 < t2) (h23 : t2 < t3)
    (hstep1 : autoSaveDraft t1 d ⟨c1, false, none⟩ s0 = (ui1, s1))
    (hstep2 : handleSave t2 d ui1 s1 = (ui2, s2))
    (hstep3 : handleDelete d s2 = (ui3, s3))
    (hstep4 : autoSaveDraft t3 d { ui3 with content := c2 } s3 = (ui4, s4)) :
    ∃ e1 e2 e3 : JournalEntry,
      getJournalByDate d s1 = some e1 ∧
      getJournalByDate d s2 = some e2 ∧
      getJournalByDate d s4 = some e3 ∧
      e1.draft = some true ∧ e2.draft = some false ∧
      e1.createdAt = t1 ∧ e2.createdAt = e1.createdAt ∧
      e1.lastModified < e2.lastModified ∧
      e3.createdAt = t3 ∧ e3.createdAt ≠ e1.createdAt := by
  simp only [autoSaveDraft] at hstep1
  rw [if_neg hc1] at hstep1
  rw [Prod.mk.injEq] at hstep1
  obtain ⟨hui1, hs1⟩ := hstep1
  subst hui1 hs1
  simp only [handleSave] at hstep2
  rw [if_neg hc1] at hstep2
  rw [Prod.mk.injEq] at hstep2
  obtain ⟨hui2, hs2⟩ := hstep2
  subst hs2
  simp only [handleDelete] at hstep3
  rw [Prod.mk.injEq] at hstep3
  obtain ⟨hui3, hs3⟩ := hstep3
  subst hui3 hs3
  simp only [autoSaveDraft] at hstep4
  rw [if_neg hc2] at hstep4
  rw [Prod.mk.injEq] at hstep4
  obtain ⟨hui4, hs4⟩ := hstep4
  subst hs4
  refine ⟨⟨d, jsTrim c1, some true, t1, t1⟩, ⟨d, jsTrim c1, some false, t2, t1⟩,
    ⟨d, jsTrim c2, some true, t3, t3⟩, ?_, ?_, ?_, rfl, rfl, rfl, rfl,
    by simpa using h12, rfl, by simp; omega⟩
  · simp [getJournalByDate, saveJournal, List.find?]
  · simp [getJournalByDate, saveJournal, List.find?]
  · simp [getJournalByDate, saveJournal, List.find?]

/-- Witness for `journal_lifecycle`: a concrete run at times 1, 2, 3. -/
theorem journal_lifecycle_witness :
    jsTrim "hi" ≠ "" ∧ jsTrim "yo" ≠ "" ∧ (1 : Nat) < 2 ∧ (2 : Nat) < 3 ∧
    autoSaveDraft 1 "2024-01-01" ⟨"hi", false, none⟩ [] =
      (⟨"hi", true, some 1⟩, [⟨"2024-01-01", "hi", some true, 1, 1⟩]) ∧
    handleSave 2 "2024-01-01" ⟨"hi", true, some 1⟩
        [⟨"2024-01-01", "hi", some true, 1, 1⟩] =
      (⟨"hi", false, some 2⟩, [⟨"2024-01-01", "hi", some false, 2, 1⟩]) ∧
    handleDelete "2024-01-01" [⟨"2024-01-01", "hi", some false, 2, 1⟩] =
      (⟨"", false, none⟩, []) ∧
    autoSaveDraft 3 "2024-01-01" { (⟨"", false, none⟩ : JournalUI) with content := "yo" }
        [] =
      (⟨"yo", true, some 3⟩, [⟨"2024-01-01", "yo", some true, 3, 3⟩]) ∧
    (∃ e1 e2 e3 : JournalEntry,
      getJournalByDate "2024-01-01" [⟨"2024-01-01", "hi", some true, 1, 1⟩] = some e1 ∧
      getJournalByDate "2024-01-01" [⟨"2024-01-01", "hi", some false, 2, 1⟩] = some e2 ∧
      getJournalByDate "2024-01-01" [⟨"2024-01-01", "yo", some true, 3, 3⟩] = some e3 ∧
      e1.draft = some true ∧ e2.draft = some false ∧
      e1.createdAt = 1 ∧ e2.createdAt = e1.createdAt ∧
      e1.lastModified < e2.lastModified ∧
      e3.createdAt = 3 ∧ e3.createdAt ≠ e1.createdAt) :=
  ⟨by decide, by decide, by decide, by decide, by decide, by decide, by decide, by decide,
    journal_lifecycle "2024-01-01" "hi" "yo" 1 2 3 []
      ⟨"hi", true, some 1⟩ ⟨"hi", false, some 2⟩ ⟨"", false, none⟩ ⟨"yo", true, some 3⟩
      [⟨"2024-01-01", "hi", some true, 1, 1⟩] [⟨"2024-01-01", "hi", some false, 2, 1⟩]
      [] [⟨"2024-01-01", "yo", some true, 3, 3⟩]
      (by decide) (by decide) (by decide) (by decide)
      (by decide) (by decide) (by decide) (by decide)⟩

end MindSpace
